import Mathlib

/-!
Verification development for the spending-agent repository.

Part 1 models the incremental transaction sync service
(src/backend/services/transaction_sync.py) over the SQLAlchemy data model
of src/backend/database.py.  The database session is modelled as a pair of
states (pending working state, committed durable state); `commit` copies
pending into committed after checking the UNIQUE constraint on
`transactions.plaid_transaction_id` (the one constraint the sync operations
can violate; the other unique columns are never violated by these code
paths, so they are not checked here).  The external provider is modelled by
an explicit accounts result and an explicit list of per-call page results;
a `.error` entry models the corresponding Python call raising.  Machine
floats for amounts/balances are modelled as integers (no claim depends on
fractional values); calendar dates are kept as their ISO text form
(`datetime.strptime` round-trips them; parse failure of malformed dates is
out of scope for the claims).
-/

namespace Sync

/-- Row of the `transactions` table (database.py, class Transaction).
The autoincrement surrogate `id` column is never read by the sync code, so
it is omitted; identity for sync purposes is `plaid_transaction_id`. -/
structure TxnRow where
  user_id : Nat
  plaid_transaction_id : String
  account_id : Nat
  amount : Int
  date : String
  name : String
  category : List String
deriving DecidableEq, Repr

/-- Row of the `accounts` table (database.py, class Account). -/
structure AccountRow where
  id : Nat
  plaid_item_id : Nat
  account_id : String
  name : String
  official_name : Option String
  acc_type : String
  subtype : String
  balance_available : Option Int
  balance_current : Option Int
  balance_limit : Option Int
  currency : String
deriving DecidableEq, Repr

/-- The immutable identity fields of the `plaid_items` row handed to
`sync_item`.  Its mutable columns (`cursor`, `last_sync`) live in `DbState`
so that commit/rollback semantics apply to them. -/
structure PlaidItemRec where
  id : Nat
  user_id : Nat
  access_token : String
deriving DecidableEq, Repr

/-- One database state: the tables the sync code touches plus the mutable
columns of the synced plaid_items row.  `nextAccId` models the
autoincrement sequence for `accounts.id`. -/
structure DbState where
  accounts : List AccountRow
  transactions : List TxnRow
  itemCursor : Option String
  itemLastSync : Option Nat
  nextAccId : Nat
deriving DecidableEq, Repr

/-- A SQLAlchemy session: the working (pending) state and the durably
committed state.  `db.commit()` copies pending into committed;
`db.rollback()` discards pending in favour of committed. -/
structure Db where
  pending : DbState
  committed : DbState
deriving DecidableEq, Repr

/-- A provider transaction record as delivered in the `added` / `modified`
lists of a sync page (the fields the code reads from `txn_data`). -/
structure TxnData where
  transaction_id : String
  account_id : String
  amount : Int
  date : String
  name : String
  category : Option (List String)
deriving DecidableEq, Repr

/-- A provider account record as delivered by `get_accounts` (fields the
code reads from `acc`, with the nested `balances` dict flattened). -/
structure AccData where
  account_id : String
  name : String
  official_name : Option String
  acc_type : String
  subtype : String
  balance_available : Option Int
  balance_current : Option Int
  balance_limit : Option Int
  iso_currency_code : Option String
deriving DecidableEq, Repr

/-- One page of the provider change feed.  The code only reads
`txn['transaction_id']` from each entry of `removed`, so that list is
modelled as the projected ids. -/
structure SyncPage where
  added : List TxnData
  modified : List TxnData
  removed : List String
  next_cursor : String
  has_more : Bool
deriving DecidableEq, Repr

/-- The per-connection summary dict built by `sync_item`. -/
structure SyncSummary where
  added : Nat
  modified : Nat
  removed : Nat
  errors : List String
deriving DecidableEq, Repr

/-- Update the first list element satisfying `p` (SQLAlchemy
`.first()` + in-place attribute update); no match leaves the list
unchanged. -/
def updateFirst {α : Type} (p : α → Bool) (f : α → α) : List α → List α
  | [] => []
  | x :: xs => if p x then f x :: xs else x :: updateFirst p f xs

/-- Delete the first list element satisfying `p` (`.first()` +
`db.delete`); no match leaves the list unchanged. -/
def removeFirst {α : Type} (p : α → Bool) : List α → List α
  | [] => []
  | x :: xs => if p x then xs else x :: removeFirst p xs

/-- `TransactionSyncService._add_transaction`: look the account up by
(plaid_item_id, provider account id); silently skip when absent, otherwise
add a fresh Transaction row to the session.  Note: no existence check on
`plaid_transaction_id` — this is a plain INSERT, not an upsert. -/
def addTransaction (item : PlaidItemRec) (txn : TxnData) (s : DbState) : DbState :=
  match s.accounts.find? (fun a => a.plaid_item_id == item.id && a.account_id == txn.account_id) with
  | none => s
  | some account =>
      { s with transactions := s.transactions ++
          [{ user_id := item.user_id
             plaid_transaction_id := txn.transaction_id
             account_id := account.id
             amount := txn.amount
             date := txn.date
             name := txn.name
             category := txn.category.getD [] }] }

/-- `TransactionSyncService._update_transaction`: keyed in-place update of
the first row with the given provider transaction id; no-op when absent. -/
def updateTransaction (txn : TxnData) (s : DbState) : DbState :=
  { s with transactions :=
      (updateFirst (fun r => r.plaid_transaction_id == txn.transaction_id)
        (fun r => { r with amount := txn.amount, date := txn.date,
                           name := txn.name, category := txn.category.getD [] })
        s.transactions) }

/-- `TransactionSyncService._remove_transaction`: keyed delete of the first
row with the given provider transaction id; no-op when absent. -/
def removeTransaction (tid : String) (s : DbState) : DbState :=
  { s with transactions :=
      (removeFirst (fun r => r.plaid_transaction_id == tid) s.transactions) }

/-- One step of `_sync_accounts`: upsert one provider account record keyed
by provider account id (create when absent, then overwrite the mutable
attribute columns wholesale). -/
def upsertAccount (item : PlaidItemRec) (a : AccData) (s : DbState) : DbState :=
  let overwrite : AccountRow → AccountRow := fun row =>
    { row with name := a.name
               official_name := a.official_name
               acc_type := a.acc_type
               subtype := a.subtype
               balance_available := a.balance_available
               balance_current := a.balance_current
               balance_limit := a.balance_limit
               currency := a.iso_currency_code.getD ("USD") }
  if s.accounts.any (fun r => r.account_id == a.account_id) then
    { s with accounts :=
        (updateFirst (fun r => r.account_id == a.account_id) overwrite s.accounts) }
  else
    { s with
        accounts := (s.accounts ++
          [overwrite
            { id := s.nextAccId
              plaid_item_id := item.id
              account_id := a.account_id
              name := a.name
              official_name := none
              acc_type := ""
              subtype := ""
              balance_available := none
              balance_current := none
              balance_limit := none
              currency := "USD" }])
        nextAccId := s.nextAccId + 1 }

/-- `TransactionSyncService._sync_accounts` applied to an already-fetched
account list. -/
def syncAccounts (item : PlaidItemRec) (accs : List AccData) (s : DbState) : DbState :=
  accs.foldl (fun s a => upsertAccount item a s) s

/-- Apply one change-feed page to the pending state, in source order:
added inserts, then modified updates, then removed deletes. -/
def applyPage (item : PlaidItemRec) (page : SyncPage) (s : DbState) : DbState :=
  let s := page.added.foldl (fun s t => addTransaction item t s) s
  let s := page.modified.foldl (fun s t => updateTransaction t s) s
  page.removed.foldl (fun s tid => removeTransaction tid s) s

/-- Boolean no-duplicates check on provider transaction ids. -/
def idsNodup : List String → Bool
  | [] => true
  | x :: xs => !(xs.contains x) && idsNodup xs

/-- `db.commit()`: enforce the UNIQUE constraint on
`transactions.plaid_transaction_id`; on success the pending state becomes
durable, on violation the commit raises (modelled as `.error`). -/
def commitDb (db : Db) : Except String Db :=
  if idsNodup (db.pending.transactions.map (fun r => r.plaid_transaction_id)) then
    .ok { pending := db.pending, committed := db.pending }
  else
    .error ("UNIQUE constraint failed: transactions.plaid_transaction_id")

/-- `db.rollback()`: discard pending work. -/
def rollbackDb (db : Db) : Db :=
  { pending := db.committed, committed := db.committed }

/-- The per-page count increments of `sync_item` (performed from the sizes
of the reported change lists, before the records are applied). -/
def bumpCounts (summary : SyncSummary) (page : SyncPage) : SyncSummary :=
  { summary with added := summary.added + page.added.length
                 modified := summary.modified + page.modified.length
                 removed := summary.removed + page.removed.length }

/-- Stage one page of changes into the pending session state. -/
def stagePage (item : PlaidItemRec) (page : SyncPage) (db : Db) : Db :=
  { db with pending := applyPage item page db.pending }

/-- The `while has_more` loop of `sync_item`.  `pages` lists the successive
results of `plaid.sync_transactions` (`.error` = that call raising); an
exhausted list ends the loop (fuel view of the provider).  The error value
carries the summary counts accumulated so far and the session state at the
raise point, mirroring the Python locals visible to the `except` handler. -/
def syncLoop (item : PlaidItemRec) :
    List (Except String SyncPage) → SyncSummary → Option String → Db →
    Except (String × SyncSummary × Db) (Option String × SyncSummary × Db)
  | [], summary, cursor, db => .ok (cursor, summary, db)
  | .error e :: _, summary, _cursor, db => .error (e, summary, db)
  | .ok page :: rest, summary, _cursor, db =>
    match commitDb (stagePage item page db) with
    | .error e => .error (e, bumpCounts summary page, stagePage item page db)
    | .ok db2 =>
      if page.has_more then syncLoop item rest (bumpCounts summary page) (some page.next_cursor) db2
      else .ok (some page.next_cursor, bumpCounts summary page, db2)

/-- The empty per-connection summary `sync_item` starts from. -/
def emptySummary : SyncSummary := { added := 0, modified := 0, removed := 0, errors := [] }

/-- Apply the fetched account refresh to the pending session state. -/
def syncAccountsDb (item : PlaidItemRec) (accs : List AccData) (db : Db) : Db :=
  { db with pending := syncAccounts item accs db.pending }

/-- Write the final cursor and last-sync timestamp onto the pending
plaid_items row (`now` models `datetime.utcnow()`). -/
def persistCursor (db : Db) (cursor : Option String) (now : Nat) : Db :=
  { db with pending := { db.pending with itemCursor := cursor, itemLastSync := some now } }

/-- The body of the `try` block of `sync_item`: refresh accounts, run the
page loop from the durable cursor, then persist the final cursor and the
last-sync timestamp with one more commit. -/
def runSync (getAccounts : Except String (List AccData))
    (pages : List (Except String SyncPage)) (item : PlaidItemRec)
    (db0 : Db) (now : Nat) :
    Except (String × SyncSummary × Db) (SyncSummary × Db) :=
  match getAccounts with
  | .error e => .error (e, emptySummary, db0)
  | .ok accs =>
    match syncLoop item pages emptySummary (syncAccountsDb item accs db0).pending.itemCursor
        (syncAccountsDb item accs db0) with
    | .error r => .error r
    | .ok (cursor, summary, db2) =>
      match commitDb (persistCursor db2 cursor now) with
      | .error e => .error (e, summary, persistCursor db2 cursor now)
      | .ok db4 => .ok (summary, db4)

/-- `TransactionSyncService.sync_item`: run the try block; any raise is
caught, the session rolled back, and the error text appended to the
summary, which is returned rather than the exception propagating. -/
def sync_item (getAccounts : Except String (List AccData))
    (pages : List (Except String SyncPage)) (item : PlaidItemRec)
    (db0 : Db) (now : Nat) : SyncSummary × Db :=
  match runSync getAccounts pages item db0 now with
  | .ok (summary, db) => (summary, db)
  | .error (e, summary, db) => ({ summary with errors := summary.errors ++ [e] }, rollbackDb db)

/-- Number of stored transaction rows carrying a given provider id. -/
def countId (s : DbState) (tid : String) : Nat :=
  (s.transactions.filter (fun r => r.plaid_transaction_id == tid)).length

end Sync

/-!
Part 2 models the query-answering agent pipeline (src/backend/agent_graph.py).
The language model is a black-box capability `complete : List Msg → String`
(one chat completion over an ordered message list); the store surface is a
capability `exec : String → Except String (List Row)` where `.error`
models the SQL call raising.  A result row is modelled with the fields the
pipeline ever reads from the loosely-typed row dicts (`error`, `name`,
`amount`, `date`, `category`), each an `Option` standing for key presence;
amounts are modelled as whole-dollar integers (no claim depends on
fractional cents).  The Python `AgentState` initializes `final_response`
to the empty string, which the formatting guard treats as unset; the model
uses `none` for that sentinel and `some` for a stage assignment.  Prompt
prose is abridged to its structural skeleton (the claims never inspect the
prompt text, only which inputs flow into it).
-/

namespace Agent

/-- Message roles (HumanMessage / AIMessage). -/
inductive Role where
  | user
  | assistant
deriving DecidableEq, Repr

/-- One role-tagged chat message. -/
structure Msg where
  role : Role
  content : String
deriving DecidableEq, Repr

/-- Build a HumanMessage. -/
def userMsg (s : String) : Msg := { role := Role.user, content := s }

/-- The black-box language model capability. -/
structure LLM where
  complete : List Msg → String

/-- A result row: option fields model dict-key presence. -/
structure Row where
  err : Option String
  name : Option String
  amount : Option Int
  date : Option String
  category : Option (List String)
deriving DecidableEq, Repr

/-- The store capability surface the pipeline consumes: the fresh schema
description text and raw query execution (`.error` = the call raising). -/
structure PipelineEnv where
  schema : String
  exec : String → Except String (List Row)

/-- The shared pipeline state record (class AgentState). -/
structure AgentState where
  messages : List Msg
  query_type : String
  sql_query : String
  query_results : List Row
  analysis : String
  final_response : Option String
deriving DecidableEq, Repr

/-- Python truthiness of the `final_response` slot as used by
`state.get("final_response")`: absent and empty are both falsy. -/
def truthy (o : Option String) : Bool :=
  match o with
  | none => false
  | some s => !(s == "")

/-- Content of `messages[-1]` (every run reaches the nodes with a nonempty
history because `process_query` appends the current user query). -/
def lastContent (msgs : List Msg) : String :=
  ((msgs.getLast?).map Msg.content).getD ("")

/-- The fixed classification instruction around the literal query text
(prose abridged). -/
def classificationPrompt (q : String) : String :=
  ("Classify this user query into one of these categories: transaction, summary, general.\nUser query: ") ++
    q ++ ("\nRespond with just the category name.")

/-- The fixed SQL-synthesis template around the schema text and the literal
query text (prose abridged). -/
def sqlPrompt (schema : String) (q : String) : String :=
  schema ++ ("\nUser query: ") ++ q ++
    ("\nGenerate a SQL query to answer this question. Return ONLY the SQL query, no explanation.")

/-- The fixed system-framing message sent first by `general_chat`
(triple-quoted-string whitespace normalized). -/
def systemPrompt : String :=
  "You are PennyWise, a friendly financial assistant. While the user isn\x27t asking about specific transactions right now, you can still provide general financial advice and maintain a helpful conversation. Keep responses concise and friendly."

/-- The fixed fallback apology `generate_insights` short-circuits to. -/
def fallbackApology : String :=
  "I couldn\x27t retrieve the data. Let me try a different approach."

/-- `str.lower()` (character-wise lowercasing, modelled over the character
list so that it evaluates by kernel reduction). -/
def pyLower (s : String) : String := String.mk (s.data.map Char.toLower)

/-- `str.strip()` (drop leading and trailing whitespace, modelled over the
character list so that it evaluates by kernel reduction). -/
def pyStrip (s : String) : String :=
  String.mk (((s.data.dropWhile Char.isWhitespace).reverse.dropWhile Char.isWhitespace).reverse)

/-- The three recognized classification labels. -/
def labels : List String := ["transaction", "summary", "general"]

/-- The labels routed to the analyze path. -/
def analyzeLabels : List String := ["transaction", "summary"]

/-- Lower-case, trim and validate the raw classification reply; anything
outside the three labels silently becomes `general`. -/
def coerceLabel (reply : String) : String :=
  let q := pyLower (pyStrip reply)
  if labels.contains q then q else ("general")

/-- Node 1, `classify_query`: one model call on the classification prompt
over `messages[-1]`, then label coercion. -/
def classify_query (llm : LLM) (st : AgentState) : AgentState :=
  { st with query_type := coerceLabel (llm.complete [userMsg (classificationPrompt (lastContent st.messages))]) }

/-- Strip markdown code fences from the model reply
(`.strip()`, `.replace`, `.replace`, `.strip()`). -/
def stripFences (s : String) : String :=
  pyStrip (((pyStrip s).replace ("```sql") ("")).replace ("```") (""))

/-- Tool `execute_sql_query`: on a raising execution, return the
single-element error-marker row instead of propagating. -/
def execute_sql_query (env : PipelineEnv) (q : String) : List Row :=
  match env.exec q with
  | .ok rows => rows
  | .error e =>
      [{ err := some (("SQL Error: ") ++ e), name := none, amount := none,
         date := none, category := none }]

/-- Node 2a, `analyze_transactions`: synthesize SQL from the schema text
plus the literal query, strip fences, execute, store reply and results. -/
def analyze_transactions (llm : LLM) (env : PipelineEnv) (st : AgentState) : AgentState :=
  let sql := stripFences (llm.complete [userMsg (sqlPrompt env.schema (lastContent st.messages))])
  { st with sql_query := sql, query_results := execute_sql_query env sql }

/-- Serialization of one row into the analysis prompt (JSON rendering
abridged to the carried fields). -/
def serializeRow (r : Row) : String :=
  (r.name.getD ("")) ++ (",") ++ toString (r.amount.getD 0) ++ (",") ++ (r.date.getD (""))

/-- The fixed analysis framing around the query, the first 50 rows, and
the total row count (prose abridged). -/
def analysisPrompt (q : String) (results : List Row) : String :=
  ("User asked: ") ++ q ++ ("\nQuery results: ") ++
    String.join ((results.take 50).map serializeRow) ++
    ("\nTotal results: ") ++ toString results.length ++
    (" rows\nProvide a brief, insightful analysis of this data.")

/-- Node 3, `generate_insights`: short-circuit to the fixed apology when
there are no rows or the first row carries the error marker; otherwise one
model call on the analysis prompt. -/
def generate_insights (llm : LLM) (st : AgentState) : AgentState :=
  match st.query_results with
  | [] => { st with analysis := fallbackApology }
  | r :: _ =>
    if r.err.isSome then { st with analysis := fallbackApology }
    else
      { st with analysis :=
          llm.complete [userMsg (analysisPrompt (lastContent st.messages) st.query_results)] }

/-- Node 2b, `general_chat`: one model call on the system-framed full
history; the raw reply is written to `final_response` directly. -/
def general_chat (llm : LLM) (st : AgentState) : AgentState :=
  { st with final_response := some (llm.complete (userMsg systemPrompt :: st.messages)) }

/-- Currency rendering of `abs(amount)` (two-decimal float formatting
shown for the whole-dollar amounts of the model). -/
def formatAmount (a : Int) : String :=
  ("$") ++ toString a.natAbs ++ (".00")

/-- One line of the itemized listing; rows missing any of the name, amount
or date keys are skipped. -/
def renderRow (r : Row) : String :=
  match r.name, r.amount, r.date with
  | some n, some a, some d =>
      let dateStr := if d.any (fun c => c == 'T') then d.takeWhile (fun c => c != 'T') else d
      ("- ") ++ dateStr ++ (": ") ++ n ++ (" - ") ++ formatAmount a ++ (" ") ++
        (if a < 0 then ("spent") else ("received")) ++ ("\n")
  | _, _, _ => ("")

/-- The itemized listing over all rows (appended row by row). -/
def renderRows (rows : List Row) : String :=
  String.join (rows.map renderRow)

/-- The response text composed by `format_response` on the analyze path:
analysis alone when there are no usable rows, otherwise analysis plus
either the itemized listing (at most 5 rows) or the count-summary note. -/
def formatBody (analysis : String) (results : List Row) : String :=
  match results with
  | [] => analysis
  | r :: _ =>
    if r.err.isSome then analysis
    else
      let base := analysis ++ ("\n\n")
      if results.length ≤ 5 then
        base ++ ("Here\x27s the data I found:\n") ++ renderRows results
      else
        base ++ ("\n(Showing analysis of ") ++ toString results.length ++ (" transactions)")

/-- Node 4, `format_response`: no-op when `final_response` is already
truthy; otherwise compose and assign the analyze-path response when the
query type is transaction or summary; otherwise leave the state alone. -/
def format_response (st : AgentState) : AgentState :=
  if truthy st.final_response then st
  else if analyzeLabels.contains st.query_type then
    { st with final_response := some (formatBody st.analysis st.query_results) }
  else st

/-- `route_after_classification`: the single branch decision. -/
def route_after_classification (st : AgentState) : String :=
  if analyzeLabels.contains st.query_type then ("analyze_transactions")
  else ("general_chat")

/-- The initial state built by `process_query` (its `final_response` of ""
is the unset sentinel, modelled as `none`). -/
def initialState (msgs : List Msg) : AgentState :=
  { messages := msgs, query_type := "", sql_query := "", query_results := [],
    analysis := "", final_response := none }

/-- The compiled graph of `create_agent_graph`: classify, one conditional
branch (analyze → insights | general chat), converging at formatting, the
sole terminal stage. -/
def runPipeline (llm : LLM) (env : PipelineEnv) (msgs : List Msg) : AgentState :=
  let st1 := classify_query llm (initialState msgs)
  let st2 :=
    if route_after_classification st1 == "analyze_transactions" then
      generate_insights llm (analyze_transactions llm env st1)
    else general_chat llm st1
  format_response st2

/-- The query type a run with this history gets after classification. -/
def classifiedType (llm : LLM) (msgs : List Msg) : String :=
  (classify_query llm (initialState msgs)).query_type

/-- The SQL text a run with this history executes on the analyze path. -/
def generatedSql (llm : LLM) (env : PipelineEnv) (msgs : List Msg) : String :=
  stripFences (llm.complete [userMsg (sqlPrompt env.schema (lastContent msgs))])

/-- Result of the `calculate_summary` tool: the error dict or one of the
two aggregation dicts (modelled keyed; pandas presentation order of the
dict entries carries no information). -/
inductive SummaryResult where
  | err (msg : String)
  | categoryBreakdown (counts : List (String × Nat))
  | monthlyTrend (sums : List (String × Int))
deriving DecidableEq, Repr

/-- Occurrences of a label in the flattened category multiset. -/
def countOcc (l : List String) (x : String) : Nat :=
  (l.filter (fun y => y == x)).length

/-- The distinct labels of a list in order of first appearance. -/
def distinctLabels (l : List String) : List String :=
  l.foldl (fun acc x => if acc.contains x then acc else acc ++ [x]) []

/-- `pd.Series(categories).value_counts()` as a keyed count table. -/
def valueCounts (l : List String) : List (String × Nat) :=
  (distinctLabels l).map (fun x => (x, countOcc l x))

/-- Calendar month of a row date (`to_period("M")` of an ISO date is its
first seven characters). -/
def monthOf (r : Row) : String :=
  (r.date.getD ("")).take 7

/-- `df.groupby(month)["amount"].sum()` as a keyed sum table. -/
def monthlySums (data : List Row) : List (String × Int) :=
  (distinctLabels (data.map monthOf)).map
    (fun m => (m, ((data.filter (fun r => monthOf r == m)).map
        (fun r => r.amount.getD 0)).foldl (fun acc x => acc + x) 0))

/-- Tool `calculate_summary`: guard on missing/error data, then the two
aggregations (flatten-and-count categories; per-month amount sums), with
the unknown-type error for anything else, mirroring the if/elif chain. -/
def calculate_summary (data : List Row) (summary_type : String) : SummaryResult :=
  match data with
  | [] => .err ("No valid data to summarize")
  | r0 :: _ =>
    if r0.err.isSome then .err ("No valid data to summarize")
    else if summary_type == "category breakdown" then
      if data.any (fun r => r.category.isSome) then
        .categoryBreakdown (valueCounts ((data.map (fun r => r.category.getD [])).flatten))
      else .err ("Unknown summary type")
    else if summary_type == "monthly_trend" then
      .monthlyTrend (monthlySums data)
    else .err ("Unknown summary type")

end Agent

/-!
Concrete instances used by the closed theorems and witnesses below: one
linked connection with one account, and small provider payloads.
-/

open Sync Agent

/-- A linked connection (plaid_items row id 1, demo user id 1). -/
def fixItem : PlaidItemRec := { id := 1, user_id := 1, access_token := "tok" }

/-- Its one stored account (accounts row id 1, provider id acc1). -/
def fixAccRow : AccountRow :=
  { id := 1, plaid_item_id := 1, account_id := "acc1", name := "Checking",
    official_name := none, acc_type := "depository", subtype := "checking",
    balance_available := none, balance_current := none, balance_limit := none,
    currency := "USD" }

/-- Initial database content: the account, no transactions, no cursor. -/
def fixS0 : DbState :=
  { accounts := [fixAccRow], transactions := [], itemCursor := none,
    itemLastSync := none, nextAccId := 2 }

/-- A clean session over that content. -/
def fixDb0 : Db := { pending := fixS0, committed := fixS0 }

/-- Provider account refresh returning no account records. -/
def fixGetAccounts : Except String (List AccData) := .ok []

/-- One provider transaction record for account acc1. -/
def fixTxn : TxnData :=
  { transaction_id := "t1", account_id := "acc1", amount := 10,
    date := "2024-01-05", name := "Coffee Shop", category := some ["Food"] }

/-- The same provider record re-delivered with an updated amount. -/
def fixTxnV2 : TxnData := { fixTxn with amount := 25 }

/-- First delivery: one page adding `fixTxn`, no further pages. -/
def fixPagesFirst : List (Except String SyncPage) :=
  [.ok { added := [fixTxn], modified := [], removed := [], next_cursor := "c1", has_more := false }]

/-- Re-delivery of the same added record (same provider transaction id,
updated amount), as after a crash between page commit and cursor
persistence. -/
def fixPagesRedeliver : List (Except String SyncPage) :=
  [.ok { added := [fixTxnV2], modified := [], removed := [], next_cursor := "c2", has_more := false }]

/-- A committed first page followed by a raising page fetch. -/
def fixPagesFetchFail : List (Except String SyncPage) :=
  [.ok { added := [fixTxn], modified := [], removed := [], next_cursor := "c1", has_more := true },
   .error ("page fetch failed")]

/-- The stored row the first page produces. -/
def fixRow : TxnRow :=
  { user_id := 1, plaid_transaction_id := "t1", account_id := 1, amount := 10,
    date := "2024-01-05", name := "Coffee Shop", category := ["Food"] }

/-- Database content after the first page is committed (cursor column
still untouched: it is only written after the loop). -/
def fixS1 : DbState :=
  { accounts := [fixAccRow], transactions := [fixRow], itemCursor := none,
    itemLastSync := none, nextAccId := 2 }

/-- The session state at the raise point of `fixPagesFetchFail`. -/
def fixDbAtRaise : Db := { pending := fixS1, committed := fixS1 }

/-- An added record whose account id matches no stored account. -/
def fixTxnNoAcc : TxnData :=
  { transaction_id := "tx9", account_id := "nosuch", amount := 7,
    date := "2024-03-01", name := "Mystery", category := none }

/-- One page adding only the unmatched record. -/
def fixPagesNoAcc : List (Except String SyncPage) :=
  [.ok { added := [fixTxnNoAcc], modified := [], removed := [], next_cursor := "c9", has_more := false }]

/-- A model that always answers `general`. -/
def llmGeneral : LLM := { complete := fun _ => "general" }

/-- A model that always answers `transaction` (so the SQL it then emits is
also the literal text `transaction`). -/
def llmTransaction : LLM := { complete := fun _ => "transaction" }

/-- A one-message history. -/
def msgsHi : List Msg := [userMsg ("hi")]

/-- A store whose every query succeeds with no rows. -/
def envOkEmpty : PipelineEnv := { schema := "", exec := fun _ => .ok [] }

/-- A store whose every query raises. -/
def envFail : PipelineEnv := { schema := "", exec := fun _ => .error ("boom") }

/-- A well-formed result row (name, amount, date present, no error key). -/
def fixShopRow : Row :=
  { err := none, name := some ("Shop"), amount := some 12,
    date := some ("2024-01-02"), category := none }

/-- An analyze-path state carrying six result rows, about to be formatted. -/
def fixStSix : AgentState :=
  { messages := [], query_type := "transaction", sql_query := "",
    query_results := List.replicate 6 fixShopRow, analysis := "A",
    final_response := none }

/-- A row carrying only a category list. -/
def mkCatRow (cs : List String) : Row :=
  { err := none, name := none, amount := none, date := none, category := some cs }

/-- A row carrying a date and an amount. -/
def mkMonRow (d : String) (a : Int) : Row :=
  { err := none, name := none, amount := some a, date := some d, category := none }

/-- The category-breakdown example rows of the specification. -/
def fixCatRows : List Row :=
  [mkCatRow ["Food"], mkCatRow ["Food", "Coffee"], mkCatRow ["Gas"]]

/-- The monthly-trend example rows of the specification. -/
def fixMonRows : List Row :=
  [mkMonRow ("2024-01-05") 10, mkMonRow ("2024-01-20") 20, mkMonRow ("2024-02-01") 5]

/-- A model that answers with an unrecognized label. -/
def llmBanana : LLM := { complete := fun _ => "banana" }

/-!
Theorems.  Shared helper lemmas come first; each claim then gets exactly
one theorem (with a witness where the theorem carries hypotheses).
-/

/-- Folding a cursor-preserving step preserves the cursor column. -/
theorem foldl_itemCursor {α : Type} (f : DbState → α → DbState)
    (h : ∀ s x, (f s x).itemCursor = s.itemCursor) :
    ∀ (l : List α) (s : DbState), (l.foldl f s).itemCursor = s.itemCursor := by
  intro l
  induction l with
  | nil => intro s; rfl
  | cons x xs ih => intro s; rw [List.foldl_cons, ih, h]

/-- `_add_transaction` never touches the cursor column. -/
theorem addTransaction_itemCursor (item : PlaidItemRec) (t : TxnData) (s : DbState) :
    (addTransaction item t s).itemCursor = s.itemCursor := by
  unfold addTransaction
  split <;> rfl

/-- `_sync_accounts` steps never touch the cursor column. -/
theorem upsertAccount_itemCursor (item : PlaidItemRec) (a : AccData) (s : DbState) :
    (upsertAccount item a s).itemCursor = s.itemCursor := by
  unfold upsertAccount
  split <;> rfl

/-- Applying a page never touches the cursor column. -/
theorem applyPage_itemCursor (item : PlaidItemRec) (page : SyncPage) (s : DbState) :
    (applyPage item page s).itemCursor = s.itemCursor := by
  unfold applyPage
  dsimp only
  rw [foldl_itemCursor (fun s tid => removeTransaction tid s) (fun s tid => rfl),
    foldl_itemCursor (fun s t => updateTransaction t s) (fun s t => rfl),
    foldl_itemCursor (fun s t => addTransaction item t s)
      (fun s t => addTransaction_itemCursor item t s)]

/-- The account refresh never touches the cursor column. -/
theorem syncAccounts_itemCursor (item : PlaidItemRec) (accs : List AccData) (s : DbState) :
    (syncAccounts item accs s).itemCursor = s.itemCursor :=
  foldl_itemCursor _ (fun s a => upsertAccount_itemCursor item a s) accs s

/-- A successful commit makes the pending state durable. -/
theorem commitDb_ok {db db2 : Db} (h : commitDb db = .ok db2) :
    db2 = { pending := db.pending, committed := db.pending } := by
  unfold commitDb at h
  split at h
  · cases h; rfl
  · cases h

/-- Loop invariant: the page loop never changes the cursor column, in the
pending or in the committed state, whether it succeeds or raises. -/
theorem syncLoop_cursor (item : PlaidItemRec) :
    ∀ (pages : List (Except String SyncPage)) (summary : SyncSummary)
      (c x : Option String) (db : Db),
    db.pending.itemCursor = x → db.committed.itemCursor = x →
    (match syncLoop item pages summary c db with
     | .error (_, _, d) => d.pending.itemCursor = x ∧ d.committed.itemCursor = x
     | .ok (_, _, d) => d.pending.itemCursor = x ∧ d.committed.itemCursor = x) := by
  intro pages
  induction pages with
  | nil => intro summary c x db h1 h2; exact ⟨h1, h2⟩
  | cons p rest ih =>
    intro summary c x db h1 h2
    cases p with
    | error e => exact ⟨h1, h2⟩
    | ok page =>
      have hstage1 : (stagePage item page db).pending.itemCursor = x := by
        show (applyPage item page db.pending).itemCursor = x
        rw [applyPage_itemCursor]; exact h1
      have hstage2 : (stagePage item page db).committed.itemCursor = x := h2
      show (match syncLoop item (.ok page :: rest) summary c db with
            | .error (_, _, d) => d.pending.itemCursor = x ∧ d.committed.itemCursor = x
            | .ok (_, _, d) => d.pending.itemCursor = x ∧ d.committed.itemCursor = x)
      rw [syncLoop]
      cases hc : commitDb (stagePage item page db) with
      | error e => exact ⟨hstage1, hstage2⟩
      | ok db2 =>
        have hdb2 := commitDb_ok hc
        have h21 : db2.pending.itemCursor = x := by rw [hdb2]; exact hstage1
        have h22 : db2.committed.itemCursor = x := by rw [hdb2]; exact hstage1
        by_cases hm : page.has_more
        · simp only [hm, if_true]
          exact ih (bumpCounts summary page) (some page.next_cursor) x db2 h21 h22
        · simp only [hm, if_false]
          exact ⟨h21, h22⟩

/-- If the try block of `sync_item` raises, the session state visible to
the handler still carries the original durable cursor. -/
theorem runSync_error_cursor
    (ga : Except String (List AccData)) (pages : List (Except String SyncPage))
    (item : PlaidItemRec) (db0 : Db) (now : Nat)
    (e : String) (s : SyncSummary) (d : Db)
    (hclean : db0.pending.itemCursor = db0.committed.itemCursor)
    (h : runSync ga pages item db0 now = .error (e, s, d)) :
    d.committed.itemCursor = db0.committed.itemCursor := by
  unfold runSync at h
  cases ga with
  | error e2 =>
    cases h
    rfl
  | ok accs =>
    dsimp only at h
    have ha1 : (syncAccountsDb item accs db0).pending.itemCursor = db0.committed.itemCursor := by
      show (syncAccounts item accs db0.pending).itemCursor = db0.committed.itemCursor
      rw [syncAccounts_itemCursor]; exact hclean
    have ha2 : (syncAccountsDb item accs db0).committed.itemCursor = db0.committed.itemCursor := rfl
    have hinv := syncLoop_cursor item pages emptySummary
      (syncAccountsDb item accs db0).pending.itemCursor db0.committed.itemCursor
      (syncAccountsDb item accs db0) ha1 ha2
    cases hl : syncLoop item pages emptySummary (syncAccountsDb item accs db0).pending.itemCursor
        (syncAccountsDb item accs db0) with
    | error r =>
      obtain ⟨r1, r2, r3⟩ := r
      rw [hl] at h hinv
      dsimp only at hinv
      cases h
      exact hinv.2
    | ok res =>
      obtain ⟨cursor, summary, db2⟩ := res
      rw [hl] at h hinv
      dsimp only at h hinv
      cases hc : commitDb (persistCursor db2 cursor now) with
      | error e2 =>
        rw [hc] at h
        cases h
        exact hinv.2
      | ok db4 =>
        rw [hc] at h
        cases h

/-- When no list element matches, deleting the first match is a no-op. -/
theorem removeFirst_of_forall_neg {α : Type} (p : α → Bool) (l : List α)
    (h : ∀ x ∈ l, p x = false) : removeFirst p l = l := by
  induction l with
  | nil => rfl
  | cons x xs ih =>
    have hx := h x (List.mem_cons_self x xs)
    simp only [removeFirst, hx, Bool.false_eq_true, if_false]
    rw [ih (fun y hy => h y (List.mem_cons_of_mem x hy))]

/-- Deleting the first match from a list whose only match is a final
appended element removes exactly that element. -/
theorem removeFirst_append_singleton {α : Type} (p : α → Bool) (l : List α) (y : α)
    (h : ∀ x ∈ l, p x = false) (hy : p y = true) : removeFirst p (l ++ [y]) = l := by
  induction l with
  | nil => simp [removeFirst, hy]
  | cons x xs ih =>
    have hx := h x (List.mem_cons_self x xs)
    simp only [List.cons_append, removeFirst, hx, Bool.false_eq_true, if_false]
    congr 1
    exact ih (fun z hz => h z (List.mem_cons_of_mem x hz))

/-- A zero keyed row count means no stored row matches that id. -/
theorem countId_zero_forall {s : DbState} {tid : String}
    (h : countId s tid = 0) :
    ∀ r ∈ s.transactions, (r.plaid_transaction_id == tid) = false := by
  intro r hr
  have hnil : s.transactions.filter (fun r => r.plaid_transaction_id == tid) = [] :=
    List.length_eq_zero.mp h
  have := List.filter_eq_nil_iff.mp hnil r hr
  exact Bool.not_eq_true _ |>.mp this

/-- Claim C2: a raise in any step of `sync_item` (account refresh, page
fetch, or committing an applied page) is caught: the error text is appended
to the returned summary instead of propagating, the session is rolled back
(pending = committed, so the in-progress page is discarded), the committed
state at the raise point — including every previously committed page — is
exactly what remains, and the durable cursor still holds its pre-sync
value, never one past the last successfully committed page. -/
theorem c2_sync_failure_contained
    (ga : Except String (List AccData)) (pages : List (Except String SyncPage))
    (item : PlaidItemRec) (db0 : Db) (now : Nat)
    (e : String) (s : SyncSummary) (d : Db)
    (hclean : db0.pending.itemCursor = db0.committed.itemCursor)
    (h : runSync ga pages item db0 now = .error (e, s, d)) :
    sync_item ga pages item db0 now = ({ s with errors := s.errors ++ [e] }, rollbackDb d)
    ∧ (rollbackDb d).pending = d.committed
    ∧ (rollbackDb d).committed = d.committed
    ∧ d.committed.itemCursor = db0.committed.itemCursor := by
  refine ⟨?_, rfl, rfl, runSync_error_cursor ga pages item db0 now e s d hclean h⟩
  unfold sync_item
  rw [h]

/-- Witness for C2: a committed first page followed by a raising page
fetch.  The summary returns the error, the committed state keeps the
first page's row, and the durable cursor is unchanged. -/
theorem c2_witness :
    sync_item fixGetAccounts fixPagesFetchFail fixItem fixDb0 7 =
      ({ added := 1, modified := 0, removed := 0, errors := ["page fetch failed"] }, fixDbAtRaise)
    ∧ fixDbAtRaise.pending = fixDbAtRaise.committed
    ∧ fixDbAtRaise.committed.transactions = [fixRow]
    ∧ fixDbAtRaise.committed.itemCursor = fixDb0.committed.itemCursor := by
  have h := c2_sync_failure_contained fixGetAccounts fixPagesFetchFail fixItem fixDb0 7
    ("page fetch failed") { added := 1, modified := 0, removed := 0, errors := [] }
    fixDbAtRaise rfl rfl
  exact ⟨h.1, rfl, rfl, h.2.2.2⟩

/-- Claim C1 (evidence of the divergence): re-delivering the same "added"
record (same provider transaction id, updated amount) does not upsert.
The second `sync_item` run attempts a second INSERT, the page commit fails
on the UNIQUE constraint, the page is rolled back, and the one stored row
still carries the ORIGINAL amount (10), not the latest value (25). -/
theorem c1_add_not_idempotent :
    (Sync.sync_item fixGetAccounts fixPagesRedeliver fixItem
        (Sync.sync_item fixGetAccounts fixPagesFirst fixItem fixDb0 5).2 6).1.errors =
      ["UNIQUE constraint failed: transactions.plaid_transaction_id"]
    ∧ Sync.countId
        (Sync.sync_item fixGetAccounts fixPagesRedeliver fixItem
          (Sync.sync_item fixGetAccounts fixPagesFirst fixItem fixDb0 5).2 6).2.committed
        fixTxn.transaction_id = 1
    ∧ (Sync.sync_item fixGetAccounts fixPagesRedeliver fixItem
        (Sync.sync_item fixGetAccounts fixPagesFirst fixItem fixDb0 5).2 6).2.committed.transactions.map
        Sync.TxnRow.amount = [10] := by
  exact ⟨rfl, rfl, rfl⟩

/-- Claim C10: the summary counts are taken from the change-list sizes
before applying, and an added record whose account id matches no stored
account is silently skipped — so the returned added count (1) exceeds the
number of rows actually inserted (0), with no error recorded. -/
theorem c10_added_count_overcounts :
    (Sync.sync_item fixGetAccounts fixPagesNoAcc fixItem fixDb0 3).1.added = 1
    ∧ (Sync.sync_item fixGetAccounts fixPagesNoAcc fixItem fixDb0 3).2.committed.transactions = []
    ∧ (Sync.sync_item fixGetAccounts fixPagesNoAcc fixItem fixDb0 3).1.errors = [] := by
  exact ⟨rfl, rfl, rfl⟩

/-- Claim C9: a sync-add (with its account present) followed by a sync-
remove of the same provider id leaves no row with that id, and removing an
id with no present row is an idempotent no-op. -/
theorem c9_round_trip (item : PlaidItemRec) (t : TxnData) (s : DbState) (a : AccountRow)
    (hacct : s.accounts.find?
        (fun r => r.plaid_item_id == item.id && r.account_id == t.account_id) = some a)
    (habs : countId s t.transaction_id = 0) :
    countId (removeTransaction t.transaction_id (addTransaction item t s)) t.transaction_id = 0
    ∧ ∀ s2 : DbState, countId s2 t.transaction_id = 0 →
        removeTransaction t.transaction_id s2 = s2 := by
  have hall := countId_zero_forall habs
  constructor
  · unfold addTransaction
    rw [hacct]
    unfold removeTransaction countId
    dsimp only
    rw [removeFirst_append_singleton _ _ _ hall (by simp)]
    exact habs
  · intro s2 h2
    unfold removeTransaction
    rw [removeFirst_of_forall_neg _ _ (countId_zero_forall h2)]

/-- Label coercion always lands in the three-label set. -/
theorem coerceLabel_mem (r : String) :
    coerceLabel r = "transaction" ∨ coerceLabel r = "summary" ∨ coerceLabel r = "general" := by
  unfold coerceLabel
  dsimp only
  by_cases h : (labels.contains (pyLower (pyStrip r))) = true
  · rw [if_pos h]
    have hm : pyLower (pyStrip r) ∈ labels := List.mem_of_elem_eq_true h
    simp only [labels, List.mem_cons, List.not_mem_nil, or_false] at hm
    exact hm
  · rw [if_neg h]
    exact Or.inr (Or.inr rfl)

/-- The route answer names the analyze node exactly when the query type is
one of the analyze labels. -/
theorem route_analyze_iff (st : AgentState) :
    ((route_after_classification st == "analyze_transactions") = true) ↔
      analyzeLabels.contains st.query_type = true := by
  unfold route_after_classification
  by_cases hc : analyzeLabels.contains st.query_type = true
  · rw [if_pos hc]
    simp only [hc]
    decide
  · rw [if_neg hc]
    simp only [hc, iff_false]
    decide

/-- The insight stage leaves the query type alone. -/
theorem generate_insights_query_type (llm : LLM) (st : AgentState) :
    (generate_insights llm st).query_type = st.query_type := by
  unfold generate_insights
  cases hq : st.query_results with
  | nil => rfl
  | cons r rest =>
    dsimp only
    split <;> rfl

/-- The insight stage leaves the final response alone. -/
theorem generate_insights_final (llm : LLM) (st : AgentState) :
    (generate_insights llm st).final_response = st.final_response := by
  unfold generate_insights
  cases hq : st.query_results with
  | nil => rfl
  | cons r rest =>
    dsimp only
    split <;> rfl

/-- The formatting stage leaves the query type alone. -/
theorem format_response_query_type (st : AgentState) :
    (format_response st).query_type = st.query_type := by
  unfold format_response
  split
  · rfl
  · split <;> rfl

/-- With no response yet and an analyze-path query type, the formatting
stage assigns the composed body. -/
theorem format_sets_final (st : AgentState)
    (h1 : st.final_response = none)
    (h2 : analyzeLabels.contains st.query_type = true) :
    (format_response st).final_response = some (formatBody st.analysis st.query_results) := by
  unfold format_response
  rw [h1]
  simp only [truthy, Bool.false_eq_true, if_false, h2, if_true]

/-- Once some stage has assigned a response, the formatting stage never
erases it. -/
theorem format_final_of_some (st : AgentState) (v : String)
    (h : st.final_response = some v) :
    (format_response st).final_response ≠ none := by
  unfold format_response
  split
  · rw [h]; simp
  · split
    · simp
    · rw [h]; simp

/-- On a non-analyze query type the formatting stage is the identity. -/
theorem format_noop_of_not_analyze (st : AgentState)
    (h : analyzeLabels.contains st.query_type = false) :
    format_response st = st := by
  unfold format_response
  split
  · rfl
  · split
    · next h2 => rw [h] at h2; simp at h2
    · rfl

/-- Claim C3: for every model behaviour, store behaviour and history, the
terminal state of the pipeline has `final_response` assigned (non-absent)
on both reachable paths, and its `query_type` is exactly one of
transaction, summary, general. -/
theorem c3_terminal_invariant (llm : LLM) (env : PipelineEnv) (msgs : List Msg) :
    (runPipeline llm env msgs).final_response ≠ none
    ∧ ((runPipeline llm env msgs).query_type = "transaction"
      ∨ (runPipeline llm env msgs).query_type = "summary"
      ∨ (runPipeline llm env msgs).query_type = "general") := by
  unfold runPipeline
  dsimp only
  constructor
  · by_cases hroute : (route_after_classification (classify_query llm (initialState msgs)) ==
        "analyze_transactions") = true
    · rw [if_pos hroute]
      have hc := (route_analyze_iff _).mp hroute
      have hset := format_sets_final
        (generate_insights llm (analyze_transactions llm env (classify_query llm (initialState msgs))))
        (by rw [generate_insights_final]; rfl)
        (by rw [generate_insights_query_type]; exact hc)
      rw [hset]
      simp
    · rw [if_neg hroute]
      exact format_final_of_some _
        (llm.complete (userMsg systemPrompt :: (classify_query llm (initialState msgs)).messages)) rfl
  · by_cases hroute : (route_after_classification (classify_query llm (initialState msgs)) ==
        "analyze_transactions") = true
    · rw [if_pos hroute, format_response_query_type, generate_insights_query_type]
      exact coerceLabel_mem _
    · rw [if_neg hroute, format_response_query_type]
      exact coerceLabel_mem _

/-- Claim C4: on an analyze-branch run whose query execution raises, the
execution step returns the single error-marker row instead of raising, the
insight stage short-circuits to the fixed apology, the final response is
exactly that apology with no transaction listing appended, and an empty
result set short-circuits the insight stage identically. -/
theorem c4_exec_failure_fail_closed (llm : LLM) (env : PipelineEnv) (msgs : List Msg) (e : String)
    (hq : classifiedType llm msgs = "transaction" ∨ classifiedType llm msgs = "summary")
    (hexec : env.exec (generatedSql llm env msgs) = .error e) :
    (runPipeline llm env msgs).final_response = some fallbackApology
    ∧ execute_sql_query env (generatedSql llm env msgs) =
        [{ err := some (("SQL Error: ") ++ e), name := none, amount := none,
           date := none, category := none }]
    ∧ ∀ st : AgentState, st.query_results = [] →
        (generate_insights llm st).analysis = fallbackApology := by
  have hexecRow : execute_sql_query env (generatedSql llm env msgs) =
      [{ err := some (("SQL Error: ") ++ e), name := none, amount := none,
         date := none, category := none }] := by
    unfold execute_sql_query
    rw [hexec]
  refine ⟨?_, hexecRow, ?_⟩
  · have hc : analyzeLabels.contains (classify_query llm (initialState msgs)).query_type = true := by
      show analyzeLabels.contains (classifiedType llm msgs) = true
      rcases hq with h | h <;> rw [h] <;> decide
    have hroute := (route_analyze_iff (classify_query llm (initialState msgs))).mpr hc
    unfold runPipeline
    dsimp only
    rw [if_pos hroute]
    have hexecRow2 : execute_sql_query env (stripFences (llm.complete
        [userMsg (sqlPrompt env.schema (lastContent
          (classify_query llm (initialState msgs)).messages))])) =
        [{ err := some (("SQL Error: ") ++ e), name := none, amount := none,
           date := none, category := none }] := hexecRow
    have hanalyze : analyze_transactions llm env (classify_query llm (initialState msgs)) =
        { classify_query llm (initialState msgs) with
            sql_query := stripFences (llm.complete
              [userMsg (sqlPrompt env.schema (lastContent
                (classify_query llm (initialState msgs)).messages))])
            query_results :=
              [{ err := some (("SQL Error: ") ++ e), name := none, amount := none,
                 date := none, category := none }] } := by
      unfold analyze_transactions
      dsimp only
      rw [hexecRow2]
    rw [hanalyze]
    have hset := format_sets_final
      (generate_insights llm
        { classify_query llm (initialState msgs) with
            sql_query := stripFences (llm.complete
              [userMsg (sqlPrompt env.schema (lastContent
                (classify_query llm (initialState msgs)).messages))])
            query_results :=
              [{ err := some (("SQL Error: ") ++ e), name := none, amount := none,
                 date := none, category := none }] })
      (by rw [generate_insights_final]; rfl)
      (by rw [generate_insights_query_type]; exact hc)
    rw [hset]
    rfl
  · intro st h
    unfold generate_insights
    rw [h]

/-- Witness for C4: a model that classifies into the analyze branch over a
store whose execution raises; the final response is exactly the apology. -/
theorem c4_witness :
    (runPipeline llmTransaction envFail msgsHi).final_response = some fallbackApology := by
  have h := c4_exec_failure_fail_closed llmTransaction envFail msgsHi ("boom")
    (Or.inl rfl) rfl
  exact h.1

/-- Claim C5: any classification reply whose trimmed, lower-cased form is
outside the three labels silently yields the query type `general` (the
model is total here: no error value exists to surface). -/
theorem c5_classification_fail_safe (llm : LLM) (msgs : List Msg)
    (h : labels.contains
        (pyLower (pyStrip (llm.complete [userMsg (classificationPrompt (lastContent msgs))]))) = false) :
    classifiedType llm msgs = "general" := by
  show coerceLabel (llm.complete [userMsg (classificationPrompt (lastContent msgs))]) = "general"
  unfold coerceLabel
  simp only [h, Bool.false_eq_true, if_false]

/-- Witness for C5: the reply `banana` is coerced to `general`. -/
theorem c5_witness : classifiedType llmBanana msgsHi = "general" := by
  exact c5_classification_fail_safe llmBanana msgsHi (by decide)

/-- Claim C6: on a run classified `general`, the final response is exactly
the raw model completion for the system-framed full history, and the
formatting stage is the identity on the post-general-chat state. -/
theorem c6_general_passthrough (llm : LLM) (env : PipelineEnv) (msgs : List Msg)
    (h : classifiedType llm msgs = "general") :
    (runPipeline llm env msgs).final_response = some (llm.complete (userMsg systemPrompt :: msgs))
    ∧ format_response (general_chat llm (classify_query llm (initialState msgs)))
        = general_chat llm (classify_query llm (initialState msgs)) := by
  have hc : analyzeLabels.contains (classify_query llm (initialState msgs)).query_type = false := by
    show analyzeLabels.contains (classifiedType llm msgs) = false
    rw [h]
    decide
  have hnoop : format_response (general_chat llm (classify_query llm (initialState msgs)))
      = general_chat llm (classify_query llm (initialState msgs)) :=
    format_noop_of_not_analyze _ hc
  refine ⟨?_, hnoop⟩
  have hroute : (route_after_classification (classify_query llm (initialState msgs)) ==
      "analyze_transactions") = false := by
    unfold route_after_classification
    rw [hc]
    decide
  unfold runPipeline
  dsimp only
  rw [if_neg (by rw [hroute]; exact Bool.false_ne_true)]
  rw [hnoop]
  rfl

/-- Witness for C6: a model that always answers `general` makes that raw
completion the final response. -/
theorem c6_witness :
    (runPipeline llmGeneral envOkEmpty msgsHi).final_response = some ("general") := by
  exact (c6_general_passthrough llmGeneral envOkEmpty msgsHi rfl).1

/-- Claim C7: on an analyze-path state with a usable (nonempty, non-error)
result set and no response yet, the formatting stage appends the itemized
listing when there are at most 5 rows and the row-count summary note when
there are 6 or more. -/
theorem c7_format_boundary (st : AgentState) (r0 : Row) (rest : List Row)
    (h1 : st.final_response = none)
    (h2 : st.query_type = "transaction" ∨ st.query_type = "summary")
    (h3 : st.query_results = r0 :: rest)
    (h4 : r0.err = none) :
    (st.query_results.length ≤ 5 →
      (format_response st).final_response =
        some (st.analysis ++ ("\n\n") ++ ("Here\x27s the data I found:\n") ++
          renderRows st.query_results))
    ∧ (5 < st.query_results.length →
      (format_response st).final_response =
        some (st.analysis ++ ("\n\n") ++ ("\n(Showing analysis of ") ++
          toString st.query_results.length ++ (" transactions)"))) := by
  have hc : analyzeLabels.contains st.query_type = true := by
    rcases h2 with h | h <;> rw [h] <;> decide
  have hset := format_sets_final st h1 hc
  unfold formatBody at hset
  rw [h3] at hset
  dsimp only at hset
  rw [h4] at hset
  simp only [Option.isSome_none, Bool.false_eq_true, if_false] at hset
  constructor
  · intro hlen
    rw [h3] at hlen
    rw [if_pos hlen] at hset
    rw [hset, h3]
  · intro hlen
    rw [h3] at hlen
    rw [if_neg (by omega)] at hset
    rw [hset, h3]

/-- Witness for C7: six rows produce the count-summary note. -/
theorem c7_witness :
    (format_response fixStSix).final_response =
      some (("A") ++ ("\n\n") ++ ("\n(Showing analysis of ") ++
        toString (6 : Nat) ++ (" transactions)")) := by
  exact (c7_format_boundary fixStSix fixShopRow (List.replicate 5 fixShopRow)
    rfl (Or.inl rfl) rfl rfl).2 (by decide)

/-- Claim C8: the aggregation tool is a pure function of the fetched rows;
on the category-list rows it counts Food twice and Coffee and Gas once
each (flattened multiset counting), and on the dated rows it sums amounts
per calendar month. -/
theorem c8_calculate_summary_aggregations :
    calculate_summary fixCatRows ("category breakdown") =
      SummaryResult.categoryBreakdown [("Food", 2), ("Coffee", 1), ("Gas", 1)]
    ∧ calculate_summary fixMonRows ("monthly_trend") =
      SummaryResult.monthlyTrend [("2024-01", 30), ("2024-02", 5)] := by
  exact ⟨rfl, rfl⟩

/-- Witness for C9: add then remove provider id t1 leaves no such row, and
removing it from the store that never had it is a no-op. -/
theorem c9_witness :
    countId (removeTransaction fixTxn.transaction_id (addTransaction fixItem fixTxn fixS0))
        fixTxn.transaction_id = 0
    ∧ removeTransaction fixTxn.transaction_id fixS0 = fixS0 := by
  have h := c9_round_trip fixItem fixTxn fixS0 fixAccRow rfl rfl
  exact ⟨h.1, h.2 fixS0 rfl⟩
